import Mathlib

/-! # SOCKS5 proxy wire codec and server loop: a shallow embedding

This file embeds the `socks5` Go package (request/reply wire codec and the
per-connection server loop) as executable Lean definitions, and proves or
refutes the specified properties about them.

Bytes are modelled as `Nat` (with `% 256` applied exactly where the Go type
system forces a value into `byte`/`uint8`), byte slices as `List Nat`, and a
possibly-nil Go slice as `Option (List Nat)` (`none` is the nil slice).
A Go function that can panic at runtime (out-of-range slice indexing) is
modelled with an explicit `crash` outcome.  `net.ResolveIPAddr`, the one
external-I/O call sitting inside the codec, is modelled as an oracle
parameter `Resolver` mapping the host string it is given to `some` resolved
IP bytes or `none` (a resolution error).
-/

namespace Socks5

/-- Protocol version constant `V5` from the source. -/
def V5 : Nat := 0x05

/-- `ATYP` constant `IPV4 = 0x01`. -/
def IPV4 : Nat := 0x01

/-- `ATYP` constant `DOMAINNAME = 0x03`. -/
def DOMAINNAME : Nat := 0x03

/-- `ATYP` constant `IPV6 = 0x04`. -/
def IPV6 : Nat := 0x04

/-- `net.IPv4len = 4`. -/
def IPv4len : Nat := 4

/-- `net.IPv6len = 16`. -/
def IPv6len : Nat := 16

/-- The `Request` struct: VER, CMD, RSV, ATYP bytes, destination address
bytes (`net.IP`, a byte slice) and 16-bit destination port. -/
structure Request where
  VER : Nat
  CMD : Nat
  RSV : Nat
  ATYP : Nat
  DesTAddr : List Nat
  DestPort : Nat
deriving DecidableEq, Repr

/-- The `Reply` struct: VER, REP, RSV, ATYP bytes, bound address bytes and
16-bit bound port.  Mirrors `Request`. -/
structure Reply where
  VER : Nat
  REP : Nat
  RSV : Nat
  ATYP : Nat
  BNDAddr : List Nat
  BNDPort : Nat
deriving DecidableEq, Repr

/-- The distinct error values `DeserializeRequest` / `DeserializeReply` can
return: `errors.New("nil buffer")`, `errors.New("request is too short")`,
`ErrReqLength`, the error propagated from `net.ResolveIPAddr`, and
`errors.New("unknown address type")`. -/
inductive DecodeErr where
  | nilBuffer
  | tooShort
  | lengthMismatch
  | resolveFailed
  | unknownAddrType
deriving DecidableEq, Repr

/-- Outcome of running a Go function that returns `(T, error)` and may also
panic at runtime: a value, a non-nil error, or a panic (`crash`). -/
inductive GoResult (α : Type) where
  | ok : α → GoResult α
  | err : DecodeErr → GoResult α
  | crash : GoResult α
deriving DecidableEq, Repr

/-- Map over the value of a `GoResult`, preserving errors and crashes. -/
def GoResult.map {α β : Type} (f : α → β) : GoResult α → GoResult β
  | .ok a => .ok (f a)
  | .err e => .err e
  | .crash => .crash

/-- Oracle for `net.ResolveIPAddr("ip", host)`: DNS is external I/O, so it is
a parameter.  Input is the raw byte string the code passes as the host name;
`some ip` models successful resolution to the IP bytes `ip`, `none` models a
resolution error. -/
def Resolver : Type := List Nat → Option (List Nat)

/-- `binary.BigEndian.Uint16`: reads the first two bytes of the slice,
big-endian.  Go panics (index out of range) when the slice has fewer than two
bytes; that case is `none`. -/
def bigEndianUint16 (b : List Nat) : Option Nat :=
  match b with
  | b0 :: b1 :: _ => some (b0 * 256 + b1)
  | _ => none

/-- `binary.BigEndian.PutUint16`: the two big-endian bytes of a `uint16`
value (the argument is truncated to 16 bits by Go's type system). -/
def putUint16BE (v : Nat) : List Nat :=
  [v % 65536 / 256, v % 256]

/-- `bytes.Buffer.WriteByte`: appends one byte (the argument is a `byte`, so
truncated to 8 bits).  Per the `bytes` package contract the returned error is
always nil. -/
def bufferWriteByte (buf : List Nat) (b : Nat) : List Nat × Option Unit :=
  (buf ++ [b % 256], none)

/-- `bytes.Buffer.Write`: appends a byte slice.  Per the `bytes` package
contract the returned error is always nil. -/
def bufferWrite (buf : List Nat) (bs : List Nat) : List Nat × Option Unit :=
  (buf ++ bs.map (fun b => b % 256), none)

/-- `SerializeRequest`: writes VER, CMD, RSV, ATYP, the raw address bytes
(no domain length byte is ever written), then the port big-endian, checking
the (always-nil) buffer error after every write exactly as the source does. -/
def SerializeRequest (request : Request) : Except Unit (List Nat) :=
  match bufferWriteByte [] request.VER with
  | (_, some e) => .error e
  | (buf1, none) =>
  match bufferWriteByte buf1 request.CMD with
  | (_, some e) => .error e
  | (buf2, none) =>
  match bufferWriteByte buf2 request.RSV with
  | (_, some e) => .error e
  | (buf3, none) =>
  match bufferWriteByte buf3 request.ATYP with
  | (_, some e) => .error e
  | (buf4, none) =>
  match bufferWrite buf4 request.DesTAddr with
  | (_, some e) => .error e
  | (buf5, none) =>
  match bufferWrite buf5 (putUint16BE request.DestPort) with
  | (_, some e) => .error e
  | (buf6, none) => .ok buf6

/-- `DeserializeRequest` over a possibly-nil input slice (`none` = nil).
Faithful to the source, including its evaluation order:

* nil buffer and `< 4` checks first;
* `IPV4`: length must be `6 + net.IPv4len`; address is `content[4:8]`,
  port read from `content[8:]`;
* `IPV6`: length must be `6 + net.IPv6len`; address is `content[4:20]`,
  port read from `content[20:]`;
* `DOMAINNAME`: `addressLen := int(content[4]) + 6 + 1` indexes byte 4
  BEFORE any bound guarantees it exists (crash when the input has exactly 4
  bytes); after the length check `net.ResolveIPAddr` is called on
  `content[4:addressLen]`, and the port is read from `content[addressLen:]`
  — which is empty whenever the length check passed, so
  `binary.BigEndian.Uint16` panics there (crash);
* any other ATYP: `unknown address type`. -/
def DeserializeRequest (resolve : Resolver) (content : Option (List Nat)) :
    GoResult Request :=
  match content with
  | none => .err .nilBuffer
  | some data =>
    if data.length < 4 then .err .tooShort
    else
      let ver := data.getD 0 0
      let cmd := data.getD 1 0
      let rsv := data.getD 2 0
      let atyp := data.getD 3 0
      if atyp = IPV4 then
        if data.length ≠ 6 + IPv4len then .err .lengthMismatch
        else
          match bigEndianUint16 (data.drop 8) with
          | none => .crash
          | some port => .ok ⟨ver, cmd, rsv, atyp, (data.drop 4).take 4, port⟩
      else if atyp = IPV6 then
        if data.length ≠ 6 + IPv6len then .err .lengthMismatch
        else
          match bigEndianUint16 (data.drop 20) with
          | none => .crash
          | some port => .ok ⟨ver, cmd, rsv, atyp, (data.drop 4).take 16, port⟩
      else if atyp = DOMAINNAME then
        match data.get? 4 with
        | none => .crash
        | some lenByte =>
          let addressLen := lenByte + 6 + 1
          if data.length ≠ addressLen then .err .lengthMismatch
          else
            match resolve ((data.drop 4).take (addressLen - 4)) with
            | none => .err .resolveFailed
            | some ip =>
              match bigEndianUint16 (data.drop addressLen) with
              | none => .crash
              | some port => .ok ⟨ver, cmd, rsv, atyp, ip, port⟩
      else .err .unknownAddrType

/-- `SerializeReply`: identical write sequence to `SerializeRequest` with the
`Reply` fields. -/
def SerializeReply (reply : Reply) : Except Unit (List Nat) :=
  match bufferWriteByte [] reply.VER with
  | (_, some e) => .error e
  | (buf1, none) =>
  match bufferWriteByte buf1 reply.REP with
  | (_, some e) => .error e
  | (buf2, none) =>
  match bufferWriteByte buf2 reply.RSV with
  | (_, some e) => .error e
  | (buf3, none) =>
  match bufferWriteByte buf3 reply.ATYP with
  | (_, some e) => .error e
  | (buf4, none) =>
  match bufferWrite buf4 reply.BNDAddr with
  | (_, some e) => .error e
  | (buf5, none) =>
  match bufferWrite buf5 (putUint16BE reply.BNDPort) with
  | (_, some e) => .error e
  | (buf6, none) => .ok buf6

/-- `DeserializeReply`: the source duplicates `DeserializeRequest`'s body
verbatim, building a `Reply` instead of a `Request`. -/
def DeserializeReply (resolve : Resolver) (content : Option (List Nat)) :
    GoResult Reply :=
  match content with
  | none => .err .nilBuffer
  | some data =>
    if data.length < 4 then .err .tooShort
    else
      let ver := data.getD 0 0
      let rep := data.getD 1 0
      let rsv := data.getD 2 0
      let atyp := data.getD 3 0
      if atyp = IPV4 then
        if data.length ≠ 6 + IPv4len then .err .lengthMismatch
        else
          match bigEndianUint16 (data.drop 8) with
          | none => .crash
          | some port => .ok ⟨ver, rep, rsv, atyp, (data.drop 4).take 4, port⟩
      else if atyp = IPV6 then
        if data.length ≠ 6 + IPv6len then .err .lengthMismatch
        else
          match bigEndianUint16 (data.drop 20) with
          | none => .crash
          | some port => .ok ⟨ver, rep, rsv, atyp, (data.drop 4).take 16, port⟩
      else if atyp = DOMAINNAME then
        match data.get? 4 with
        | none => .crash
        | some lenByte =>
          let addressLen := lenByte + 6 + 1
          if data.length ≠ addressLen then .err .lengthMismatch
          else
            match resolve ((data.drop 4).take (addressLen - 4)) with
            | none => .err .resolveFailed
            | some ip =>
              match bigEndianUint16 (data.drop addressLen) with
              | none => .crash
              | some port => .ok ⟨ver, rep, rsv, atyp, ip, port⟩
      else .err .unknownAddrType

/-- Result of `Server.HandleClient`: nil, the error from the client read, an
error propagated from `DeserializeRequest`, or a runtime panic propagated
from it.  The function has no other error paths — in particular no
version-mismatch path exists in the source. -/
inductive HCResult where
  | ok
  | readErr
  | decodeErr (e : DecodeErr)
  | crash
deriving DecidableEq, Repr

/-- `Server.HandleClient`: reads once from the client into a 255-byte buffer
(`readResult` is the outcome of that read: the bytes the client sent, of
which at most 255 are taken, or a read error), passes `buf[:n]` to
`DeserializeRequest`, discards the request and returns.  It never writes to
the client; the second component is the bytes written back (always `[]`). -/
def HandleClient (resolve : Resolver) (readResult : Except Unit (List Nat)) :
    HCResult × List Nat :=
  match readResult with
  | .error _ => (.readErr, [])
  | .ok msg =>
    match DeserializeRequest resolve (some (msg.take 255)) with
    | .err e => (.decodeErr e, [])
    | .crash => (.crash, [])
    | .ok _ => (.ok, [])

/-- `Server.Accept`: loops on `Ln.Accept`.  The argument is the sequence of
results successive accept calls would return (`ok c` an accepted connection
identifier, `error` a failed accept).  Each accepted connection is handed to
a `HandleClient` goroutine (collected in the first component); on the first
accept error the source calls `log.Fatal`, which exits the whole process —
the second component records that exit and no later element is reached. -/
def Accept : List (Except Unit Nat) → List Nat × Bool
  | [] => ([], false)
  | .ok c :: rest =>
    let r := Accept rest
    (c :: r.1, r.2)
  | .error _ :: _ => ([], true)

/-- Go slice length: a nil slice has length 0. -/
def goLen : Option (List Nat) → Nat
  | none => 0
  | some l => l.length

/-- The exact total input length each ATYP variant requires (the spec's
`10` for IPv4, `22` for IPv6, and `4 + 1 + N + 2` for a domain name whose
length byte is `N`). -/
def requiredLen (data : List Nat) : Nat :=
  if data.getD 3 0 = IPV4 then 6 + IPv4len
  else if data.getD 3 0 = IPV6 then 6 + IPv6len
  else data.getD 4 0 + 6 + 1

/-- A `Request` whose fields are representable in their Go types and whose
address is a literal IPv4 or IPv6 address of the matching length. -/
def validRequest (r : Request) : Prop :=
  r.VER < 256 ∧ r.CMD < 256 ∧ r.RSV < 256 ∧ r.DestPort < 65536 ∧
    (∀ b ∈ r.DesTAddr, b < 256) ∧
    ((r.ATYP = IPV4 ∧ r.DesTAddr.length = IPv4len) ∨
      (r.ATYP = IPV6 ∧ r.DesTAddr.length = IPv6len))

/-- A `Reply` whose fields are representable in their Go types and whose
address is a literal IPv4 or IPv6 address of the matching length. -/
def validReply (r : Reply) : Prop :=
  r.VER < 256 ∧ r.REP < 256 ∧ r.RSV < 256 ∧ r.BNDPort < 65536 ∧
    (∀ b ∈ r.BNDAddr, b < 256) ∧
    ((r.ATYP = IPV4 ∧ r.BNDAddr.length = IPv4len) ∨
      (r.ATYP = IPV6 ∧ r.BNDAddr.length = IPv6len))

/-- The field-for-field translation of a decoded `Request` into the `Reply`
the mirrored decoder builds from the same bytes. -/
def replyOfRequest (r : Request) : Reply :=
  ⟨r.VER, r.CMD, r.RSV, r.ATYP, r.DesTAddr, r.DestPort⟩

lemma map_mod_eq_self {l : List Nat} (h : ∀ b ∈ l, b < 256) :
    l.map (fun b => b % 256) = l := by
  induction l with
  | nil => rfl
  | cons a t ih =>
    have ha : a % 256 = a := Nat.mod_eq_of_lt (h a (by simp))
    simp only [List.map_cons, ha, ih (fun b hb => h b (by simp [hb]))]

lemma portHi_mod (p : Nat) : p % 65536 / 256 % 256 = p % 65536 / 256 := by
  omega

/-- The byte string `SerializeRequest` produces: the four header bytes, the
raw address bytes, then the big-endian port. -/
lemma serializeRequest_eq (r : Request) :
    SerializeRequest r =
      Except.ok (r.VER % 256 :: r.CMD % 256 :: r.RSV % 256 :: r.ATYP % 256 ::
        (r.DesTAddr.map (fun b => b % 256) ++
          [r.DestPort % 65536 / 256, r.DestPort % 256])) := by
  simp [SerializeRequest, bufferWriteByte, bufferWrite, putUint16BE,
    portHi_mod, Nat.mod_mod_of_dvd]

/-- The byte string `SerializeReply` produces. -/
lemma serializeReply_eq (r : Reply) :
    SerializeReply r =
      Except.ok (r.VER % 256 :: r.REP % 256 :: r.RSV % 256 :: r.ATYP % 256 ::
        (r.BNDAddr.map (fun b => b % 256) ++
          [r.BNDPort % 65536 / 256, r.BNDPort % 256])) := by
  simp [SerializeReply, bufferWriteByte, bufferWrite, putUint16BE,
    portHi_mod, Nat.mod_mod_of_dvd]

lemma getD_get? (l : List Nat) (n d : Nat) : l.getD n d = (l.get? n).getD d := by
  simp [List.getD_eq_getElem?_getD, List.get?_eq_getElem?]

/-- What `DeserializeRequest` computes once the ATYP byte is `IPV4`. -/
lemma deserializeRequest_ipv4_cases (resolve : Resolver) (data : List Nat)
    (hnl : ¬ data.length < 4) (hA : data.getD 3 0 = IPV4) :
    DeserializeRequest resolve (some data) =
      if data.length ≠ 6 + IPv4len then GoResult.err DecodeErr.lengthMismatch
      else
        match bigEndianUint16 (data.drop 8) with
        | none => GoResult.crash
        | some port =>
          GoResult.ok ⟨data.getD 0 0, data.getD 1 0, data.getD 2 0, data.getD 3 0,
            (data.drop 4).take 4, port⟩ := by
  rw [DeserializeRequest, if_neg hnl]
  simp only [hA, if_true]

/-- What `DeserializeRequest` computes once the ATYP byte is `IPV6`. -/
lemma deserializeRequest_ipv6_cases (resolve : Resolver) (data : List Nat)
    (hnl : ¬ data.length < 4) (hA : data.getD 3 0 = IPV6) :
    DeserializeRequest resolve (some data) =
      if data.length ≠ 6 + IPv6len then GoResult.err DecodeErr.lengthMismatch
      else
        match bigEndianUint16 (data.drop 20) with
        | none => GoResult.crash
        | some port =>
          GoResult.ok ⟨data.getD 0 0, data.getD 1 0, data.getD 2 0, data.getD 3 0,
            (data.drop 4).take 16, port⟩ := by
  rw [DeserializeRequest, if_neg hnl]
  simp only [hA, if_true]
  rw [if_neg (by norm_num [IPV6, IPV4])]

/-- What `DeserializeRequest` computes once the ATYP byte is `DOMAINNAME`. -/
lemma deserializeRequest_domain_cases (resolve : Resolver) (data : List Nat)
    (hnl : ¬ data.length < 4) (hA : data.getD 3 0 = DOMAINNAME) :
    DeserializeRequest resolve (some data) =
      match data.get? 4 with
      | none => GoResult.crash
      | some lenByte =>
        if data.length ≠ lenByte + 6 + 1 then GoResult.err DecodeErr.lengthMismatch
        else
          match resolve ((data.drop 4).take (lenByte + 6 + 1 - 4)) with
          | none => GoResult.err DecodeErr.resolveFailed
          | some ip =>
            match bigEndianUint16 (data.drop (lenByte + 6 + 1)) with
            | none => GoResult.crash
            | some port =>
              GoResult.ok ⟨data.getD 0 0, data.getD 1 0, data.getD 2 0, data.getD 3 0,
                ip, port⟩ := by
  rw [DeserializeRequest, if_neg hnl]
  simp only [hA, if_true]
  rw [if_neg (by norm_num [DOMAINNAME, IPV4]), if_neg (by norm_num [DOMAINNAME, IPV6])]

/-- What `DeserializeReply` computes once the ATYP byte is `IPV4`. -/
lemma deserializeReply_ipv4_cases (resolve : Resolver) (data : List Nat)
    (hnl : ¬ data.length < 4) (hA : data.getD 3 0 = IPV4) :
    DeserializeReply resolve (some data) =
      if data.length ≠ 6 + IPv4len then GoResult.err DecodeErr.lengthMismatch
      else
        match bigEndianUint16 (data.drop 8) with
        | none => GoResult.crash
        | some port =>
          GoResult.ok ⟨data.getD 0 0, data.getD 1 0, data.getD 2 0, data.getD 3 0,
            (data.drop 4).take 4, port⟩ := by
  rw [DeserializeReply, if_neg hnl]
  simp only [hA, if_true]

/-- What `DeserializeReply` computes once the ATYP byte is `IPV6`. -/
lemma deserializeReply_ipv6_cases (resolve : Resolver) (data : List Nat)
    (hnl : ¬ data.length < 4) (hA : data.getD 3 0 = IPV6) :
    DeserializeReply resolve (some data) =
      if data.length ≠ 6 + IPv6len then GoResult.err DecodeErr.lengthMismatch
      else
        match bigEndianUint16 (data.drop 20) with
        | none => GoResult.crash
        | some port =>
          GoResult.ok ⟨data.getD 0 0, data.getD 1 0, data.getD 2 0, data.getD 3 0,
            (data.drop 4).take 16, port⟩ := by
  rw [DeserializeReply, if_neg hnl]
  simp only [hA, if_true]
  rw [if_neg (by norm_num [IPV6, IPV4])]

/-- What `DeserializeReply` computes once the ATYP byte is `DOMAINNAME`. -/
lemma deserializeReply_domain_cases (resolve : Resolver) (data : List Nat)
    (hnl : ¬ data.length < 4) (hA : data.getD 3 0 = DOMAINNAME) :
    DeserializeReply resolve (some data) =
      match data.get? 4 with
      | none => GoResult.crash
      | some lenByte =>
        if data.length ≠ lenByte + 6 + 1 then GoResult.err DecodeErr.lengthMismatch
        else
          match resolve ((data.drop 4).take (lenByte + 6 + 1 - 4)) with
          | none => GoResult.err DecodeErr.resolveFailed
          | some ip =>
            match bigEndianUint16 (data.drop (lenByte + 6 + 1)) with
            | none => GoResult.crash
            | some port =>
              GoResult.ok ⟨data.getD 0 0, data.getD 1 0, data.getD 2 0, data.getD 3 0,
                ip, port⟩ := by
  rw [DeserializeReply, if_neg hnl]
  simp only [hA, if_true]
  rw [if_neg (by norm_num [DOMAINNAME, IPV4]), if_neg (by norm_num [DOMAINNAME, IPV6])]

/-- The duplicated decoder bodies agree: decoding bytes as a `Reply` is
decoding them as a `Request` and renaming the fields. -/
lemma deserializeReply_eq_map (resolve : Resolver) (content : Option (List Nat)) :
    DeserializeReply resolve content =
      GoResult.map replyOfRequest (DeserializeRequest resolve content) := by
  cases content with
  | none => rfl
  | some data =>
    by_cases hnl : data.length < 4
    · simp [DeserializeRequest, DeserializeReply, hnl, GoResult.map]
    · by_cases h1 : data.getD 3 0 = IPV4
      · rw [deserializeRequest_ipv4_cases resolve data hnl h1,
          deserializeReply_ipv4_cases resolve data hnl h1]
        by_cases hlen : data.length = 6 + IPv4len
        · rw [if_neg (by omega), if_neg (by omega)]
          rcases hbe : bigEndianUint16 (data.drop 8) with _ | p <;>
            simp [hbe, GoResult.map, replyOfRequest]
        · rw [if_pos hlen, if_pos hlen]
          rfl
      · by_cases h2 : data.getD 3 0 = IPV6
        · rw [deserializeRequest_ipv6_cases resolve data hnl h2,
            deserializeReply_ipv6_cases resolve data hnl h2]
          by_cases hlen : data.length = 6 + IPv6len
          · rw [if_neg (by omega), if_neg (by omega)]
            rcases hbe : bigEndianUint16 (data.drop 20) with _ | p <;>
              simp [hbe, GoResult.map, replyOfRequest]
          · rw [if_pos hlen, if_pos hlen]
            rfl
        · by_cases h3 : data.getD 3 0 = DOMAINNAME
          · rw [deserializeRequest_domain_cases resolve data hnl h3,
              deserializeReply_domain_cases resolve data hnl h3]
            rcases h4 : data.get? 4 with _ | n
            · simp only [h4]
              rfl
            · simp only [h4]
              by_cases hlen : data.length = n + 6 + 1
              · rw [if_neg (by omega), if_neg (by omega)]
                rcases hres : resolve ((data.drop 4).take (n + 6 + 1 - 4)) with _ | ip
                · simp only [hres]
                  rfl
                · simp only [hres]
                  rcases hbe : bigEndianUint16 (data.drop (n + 6 + 1)) with _ | p <;>
                    simp [hbe, GoResult.map, replyOfRequest]
              · rw [if_pos hlen, if_pos hlen]
                rfl
          · rw [List.getD_eq_getElem?_getD] at h1 h2 h3
            simp [DeserializeRequest, DeserializeReply, hnl, h1, h2, h3, GoResult.map]

/-- C5: a nil input or any input shorter than 4 bytes makes
`DeserializeRequest` return an error — the nil-buffer error or the
too-short error — for every resolver; it neither succeeds nor crashes. -/
theorem c5_short_input_errors (resolve : Resolver) (input : Option (List Nat))
    (h : goLen input < 4) :
    ∃ e, DeserializeRequest resolve input = GoResult.err e ∧
      (e = DecodeErr.nilBuffer ∨ e = DecodeErr.tooShort) := by
  cases input with
  | none => exact ⟨DecodeErr.nilBuffer, rfl, Or.inl rfl⟩
  | some data =>
    have hlt : data.length < 4 := h
    refine ⟨DecodeErr.tooShort, ?_, Or.inr rfl⟩
    simp [DeserializeRequest, hlt]

/-- Closed witness for `c5_short_input_errors` at the nil input. -/
theorem c5_short_input_errors_witness :
    goLen none < 4 ∧
      ∃ e, DeserializeRequest (fun _ => none) none = GoResult.err e ∧
        (e = DecodeErr.nilBuffer ∨ e = DecodeErr.tooShort) :=
  ⟨by decide, c5_short_input_errors (fun _ => none) none (by decide)⟩

/-- C10: `SerializeRequest` and `SerializeReply` return a byte slice and a
nil error for every `Request`/`Reply` value, including nil or odd-length
addresses: every write goes through `bytes.Buffer`, whose write methods
never return a non-nil error. -/
theorem c10_serialize_never_errors (req : Request) (rep : Reply) :
    (∃ bs, SerializeRequest req = Except.ok bs) ∧
      (∃ bs, SerializeReply rep = Except.ok bs) :=
  ⟨⟨_, serializeRequest_eq req⟩, ⟨_, serializeReply_eq rep⟩⟩

/-- C7: `Server.Accept` is process-fatal on the first accept error — it
calls `log.Fatal`, i.e. `os.Exit(1)`: the exited flag is set and no
connection occurring after the error is ever accepted, contradicting the
log-and-continue behavior the spec requires. -/
theorem c7_accept_error_is_fatal (rest : List (Except Unit Nat)) :
    Accept (Except.error () :: rest) = ([], true) :=
  rfl

/-- C6: `Server.HandleClient` performs no protocol-version check at all:
fed a first message whose version byte is 4 (not 5) but which otherwise
parses as an IPv4 request, it returns nil (no error of any kind — the model
has no version-mismatch outcome because the source has no such code path)
and writes no bytes to the client. -/
theorem c6_no_version_check (resolve : Resolver) :
    HandleClient resolve (Except.ok [4, 1, 0, 1, 10, 0, 0, 1, 0, 80]) =
      (HCResult.ok, []) :=
  rfl

/-- C9: both decoders can panic.  A 4-byte input with the domain-name ATYP
crashes on the unguarded `content[4]` read (for every resolver), and a
well-formed 7-byte domain input crashes on the port read
`binary.BigEndian.Uint16(content[addressLen:])` — an empty slice — whenever
resolution succeeds. -/
theorem c9_decoders_can_crash :
    (∀ resolve : Resolver,
        DeserializeRequest resolve (some [5, 1, 0, 3]) = GoResult.crash ∧
        DeserializeReply resolve (some [5, 1, 0, 3]) = GoResult.crash) ∧
      DeserializeRequest (fun _ => some [127, 0, 0, 1])
        (some [5, 1, 0, 3, 0, 0, 80]) = GoResult.crash :=
  ⟨fun _ => ⟨rfl, rfl⟩, rfl⟩

/-- C1: for every domain-name input (any length byte value), for every
resolver, `DeserializeRequest` never returns a `Request`: after the length
check passes it either fails in `net.ResolveIPAddr` or panics reading the
port from the empty slice `content[addressLen:]`. -/
theorem c1_domain_decode_never_succeeds (resolve : Resolver) (data : List Nat)
    (r : Request) (h : data.getD 3 0 = DOMAINNAME) :
    DeserializeRequest resolve (some data) ≠ GoResult.ok r := by
  intro hok
  rw [DeserializeRequest] at hok
  by_cases hlt : data.length < 4
  · simp [hlt] at hok
  · rw [if_neg hlt] at hok
    simp only [h] at hok
    rw [if_neg (by norm_num [DOMAINNAME, IPV4]),
      if_neg (by norm_num [DOMAINNAME, IPV6])] at hok
    simp only [if_true] at hok
    rcases h4 : data.get? 4 with _ | lenByte
    · simp only [h4] at hok
      exact GoResult.noConfusion hok
    · simp only [h4] at hok
      by_cases hlen : data.length = lenByte + 6 + 1
      · rw [if_neg (by omega)] at hok
        rcases hres : resolve (List.take (lenByte + 6 + 1 - 4) (List.drop 4 data))
          with _ | ip
        · simp only [hres] at hok
          exact GoResult.noConfusion hok
        · simp only [hres] at hok
          have hdrop : data.drop (lenByte + 6 + 1) = [] := by
            rw [← hlen]
            exact List.drop_length data
          rw [hdrop] at hok
          simp [bigEndianUint16] at hok
      · rw [if_pos hlen] at hok
        exact GoResult.noConfusion hok

/-- Closed witness for `c1_domain_decode_never_succeeds`: the minimal
domain request (N = 0, port 80) never decodes to a `Request`. -/
theorem c1_domain_decode_never_succeeds_witness :
    ([5, 1, 0, 3, 0, 0, 80] : List Nat).getD 3 0 = DOMAINNAME ∧
      DeserializeRequest (fun _ => none) (some [5, 1, 0, 3, 0, 0, 80]) ≠
        GoResult.ok ⟨5, 1, 0, 3, [], 80⟩ :=
  ⟨by decide,
    c1_domain_decode_never_succeeds (fun _ => none) [5, 1, 0, 3, 0, 0, 80]
      ⟨5, 1, 0, 3, [], 80⟩ (by decide)⟩

/-- C3: decoding a well-formed domain-name request (length byte 3, name
"abc", port 80) consults the resolver — on the byte string
`[3, 97, 98, 99, 0, 80]`, i.e. the length byte, the name AND the two port
bytes, not the bare domain bytes — and, whenever that resolution succeeds,
crashes on the out-of-range port read: the decoded `Request` never holds
the unresolved domain bytes, and name resolution is not separate from
decoding. -/
theorem c3_decode_resolves_domain (resolve : Resolver) (ip : List Nat)
    (h : resolve [3, 97, 98, 99, 0, 80] = some ip) :
    DeserializeRequest resolve (some [5, 1, 0, 3, 3, 97, 98, 99, 0, 80]) =
      GoResult.crash := by
  rw [DeserializeRequest]
  norm_num [IPV4, IPV6, DOMAINNAME, List.getD]
  rw [h]
  rfl

/-- Closed witness for `c3_decode_resolves_domain` with a resolver that
always resolves to `1.2.3.4`. -/
theorem c3_decode_resolves_domain_witness :
    (fun _ => some [1, 2, 3, 4] : Resolver) [3, 97, 98, 99, 0, 80] = some [1, 2, 3, 4] ∧
      DeserializeRequest (fun _ => some [1, 2, 3, 4])
        (some [5, 1, 0, 3, 3, 97, 98, 99, 0, 80]) = GoResult.crash :=
  ⟨rfl, c3_decode_resolves_domain (fun _ => some [1, 2, 3, 4]) [1, 2, 3, 4] rfl⟩

/-- Decoding an IPv4-shaped buffer: 4 header bytes, a 4-byte address, a
2-byte port. -/
lemma deserializeRequest_ipv4_bytes (resolve : Resolver) (v c rv hi lo : Nat)
    (addr : List Nat) (hlen : addr.length = 4) :
    DeserializeRequest resolve (some (v :: c :: rv :: IPV4 :: (addr ++ [hi, lo]))) =
      GoResult.ok ⟨v, c, rv, IPV4, addr, hi * 256 + lo⟩ := by
  have hdrop : (addr ++ [hi, lo]).drop 4 = [hi, lo] := List.drop_left' hlen
  have htake : (addr ++ [hi, lo]).take 4 = addr := List.take_left' hlen
  rw [DeserializeRequest]
  simp [List.getD, hlen, hdrop, htake, IPV4, bigEndianUint16, IPv4len]

/-- Decoding an IPv6-shaped buffer: 4 header bytes, a 16-byte address, a
2-byte port. -/
lemma deserializeRequest_ipv6_bytes (resolve : Resolver) (v c rv hi lo : Nat)
    (addr : List Nat) (hlen : addr.length = 16) :
    DeserializeRequest resolve (some (v :: c :: rv :: IPV6 :: (addr ++ [hi, lo]))) =
      GoResult.ok ⟨v, c, rv, IPV6, addr, hi * 256 + lo⟩ := by
  have hdrop : (addr ++ [hi, lo]).drop 16 = [hi, lo] := List.drop_left' hlen
  have htake : (addr ++ [hi, lo]).take 16 = addr := List.take_left' hlen
  rw [DeserializeRequest]
  simp [List.getD, hlen, hdrop, htake, IPV4, IPV6, DOMAINNAME, bigEndianUint16, IPv6len]

/-- Round trip for a valid IPv4/IPv6 `Request`. -/
lemma roundtrip_request (resolve : Resolver) (req : Request) (h : validRequest req) :
    ∃ bs, SerializeRequest req = Except.ok bs ∧
      DeserializeRequest resolve (some bs) = GoResult.ok req := by
  obtain ⟨V, C, R, A, addr, P⟩ := req
  obtain ⟨hv, hc, hr, hp, hb, hvar⟩ := h
  refine ⟨_, serializeRequest_eq _, ?_⟩
  dsimp only
  rw [Nat.mod_eq_of_lt hv, Nat.mod_eq_of_lt hc, Nat.mod_eq_of_lt hr,
    Nat.mod_eq_of_lt hp, map_mod_eq_self hb]
  have hP : P / 256 * 256 + P % 256 = P := by omega
  rcases hvar with ⟨hA, hlen⟩ | ⟨hA, hlen⟩
  · subst hA
    rw [Nat.mod_eq_of_lt (show IPV4 < 256 by norm_num [IPV4])]
    rw [deserializeRequest_ipv4_bytes resolve V C R (P / 256) (P % 256) addr hlen, hP]
  · subst hA
    rw [Nat.mod_eq_of_lt (show IPV6 < 256 by norm_num [IPV6])]
    rw [deserializeRequest_ipv6_bytes resolve V C R (P / 256) (P % 256) addr hlen, hP]

/-- The field-for-field translation of a `Reply` into the `Request` the
mirrored decoder would build from the same bytes. -/
def requestOfReply (r : Reply) : Request :=
  ⟨r.VER, r.REP, r.RSV, r.ATYP, r.BNDAddr, r.BNDPort⟩

lemma validRequest_requestOfReply {rep : Reply} (h : validReply rep) :
    validRequest (requestOfReply rep) := h

/-- Round trip for a valid IPv4/IPv6 `Reply`, via the mirror lemma. -/
lemma roundtrip_reply (resolve : Resolver) (rep : Reply) (h : validReply rep) :
    ∃ bs, SerializeReply rep = Except.ok bs ∧
      DeserializeReply resolve (some bs) = GoResult.ok rep := by
  obtain ⟨bs, hser, hdes⟩ :=
    roundtrip_request resolve (requestOfReply rep) (validRequest_requestOfReply h)
  refine ⟨bs, ?_, ?_⟩
  · have hsame : SerializeReply rep = SerializeRequest (requestOfReply rep) := by
      rw [serializeReply_eq, serializeRequest_eq]
      rfl
    rw [hsame, hser]
  · rw [deserializeReply_eq_map, hdes]
    rfl

/-- C2 (amended): decode-of-encode is the identity for the IPv4 and IPv6
address variants, for both `Request` and `Reply`; the domain-name variant
does not round-trip (see the counterexample). -/
theorem c2_roundtrip_ipv4_ipv6 (resolve : Resolver) (req : Request) (rep : Reply)
    (hreq : validRequest req) (hrep : validReply rep) :
    (∃ bs, SerializeRequest req = Except.ok bs ∧
        DeserializeRequest resolve (some bs) = GoResult.ok req) ∧
      (∃ bs, SerializeReply rep = Except.ok bs ∧
        DeserializeReply resolve (some bs) = GoResult.ok rep) :=
  ⟨roundtrip_request resolve req hreq, roundtrip_reply resolve rep hrep⟩

/-- Closed witness for `c2_roundtrip_ipv4_ipv6`: an IPv4 request to
`127.0.0.1:8080` and an IPv6 reply bound to `::1` port 443. -/
theorem c2_roundtrip_ipv4_ipv6_witness :
    validRequest ⟨5, 1, 0, 1, [127, 0, 0, 1], 8080⟩ ∧
      validReply ⟨5, 0, 0, 4, [0, 0, 0, 0, 0, 0, 0, 0, 0, 0, 0, 0, 0, 0, 0, 1], 443⟩ ∧
      ((∃ bs, SerializeRequest ⟨5, 1, 0, 1, [127, 0, 0, 1], 8080⟩ = Except.ok bs ∧
          DeserializeRequest (fun _ => none) (some bs) =
            GoResult.ok ⟨5, 1, 0, 1, [127, 0, 0, 1], 8080⟩) ∧
        (∃ bs, SerializeReply
            ⟨5, 0, 0, 4, [0, 0, 0, 0, 0, 0, 0, 0, 0, 0, 0, 0, 0, 0, 0, 1], 443⟩ =
              Except.ok bs ∧
          DeserializeReply (fun _ => none) (some bs) =
            GoResult.ok ⟨5, 0, 0, 4, [0, 0, 0, 0, 0, 0, 0, 0, 0, 0, 0, 0, 0, 0, 0, 1], 443⟩)) :=
  ⟨by unfold validRequest; decide, by unfold validReply; decide,
    c2_roundtrip_ipv4_ipv6 (fun _ => none) _ _
      (by unfold validRequest; decide) (by unfold validReply; decide)⟩

/-- C2 counterexample: a domain-name `Request` (name "abc", port 80, all
fields valid bytes) serializes without any length byte, and decoding the
serialized bytes fails with the length-mismatch error instead of returning
the original value — the round trip does not hold across all three address
variants. -/
theorem c2_domain_roundtrip_fails :
    SerializeRequest ⟨5, 1, 0, 3, [97, 98, 99], 80⟩ =
        Except.ok [5, 1, 0, 3, 97, 98, 99, 0, 80] ∧
      DeserializeRequest (fun _ => none) (some [5, 1, 0, 3, 97, 98, 99, 0, 80]) =
        GoResult.err DecodeErr.lengthMismatch :=
  ⟨rfl, rfl⟩

/-- C4 (amended): with at least 4 bytes, a known ATYP byte, and — for the
domain variant — at least 5 bytes so the length byte exists,
`DeserializeRequest` returns the length-mismatch error exactly when the
total length differs from the variant's required length (10 for IPv4, 22
for IPv6, `4 + 1 + N + 2` for a domain with length byte `N`).  A 4-byte
domain-ATYP input instead panics (see the counterexample). -/
theorem c4_length_mismatch_iff (resolve : Resolver) (data : List Nat)
    (h4 : 4 ≤ data.length)
    (hknown : data.getD 3 0 = IPV4 ∨ data.getD 3 0 = IPV6 ∨
      (data.getD 3 0 = DOMAINNAME ∧ 5 ≤ data.length)) :
    (DeserializeRequest resolve (some data) = GoResult.err DecodeErr.lengthMismatch ↔
      data.length ≠ requiredLen data) := by
  have hnl : ¬ data.length < 4 := by omega
  rcases hknown with hA | hA | ⟨hA, h5⟩
  · rw [deserializeRequest_ipv4_cases resolve data hnl hA]
    have hreq : requiredLen data = 6 + IPv4len := by
      rw [requiredLen, if_pos hA]
    rw [hreq]
    by_cases hlen : data.length = 6 + IPv4len
    · rw [if_neg (by omega)]
      obtain ⟨x, y, hxy⟩ := List.length_eq_two.mp
        (show (data.drop 8).length = 2 by simp [hlen, IPv4len])
      rw [hxy]
      simp [bigEndianUint16, hlen]
    · rw [if_pos hlen]
      simp [hlen]
  · rw [deserializeRequest_ipv6_cases resolve data hnl hA]
    have hreq : requiredLen data = 6 + IPv6len := by
      rw [requiredLen, if_neg (by rw [hA]; norm_num [IPV6, IPV4]), if_pos hA]
    rw [hreq]
    by_cases hlen : data.length = 6 + IPv6len
    · rw [if_neg (by omega)]
      obtain ⟨x, y, hxy⟩ := List.length_eq_two.mp
        (show (data.drop 20).length = 2 by simp [hlen, IPv6len])
      rw [hxy]
      simp [bigEndianUint16, hlen]
    · rw [if_pos hlen]
      simp [hlen]
  · rw [deserializeRequest_domain_cases resolve data hnl hA]
    obtain ⟨v4, hv4⟩ : ∃ v, data.get? 4 = some v :=
      ⟨data.get ⟨4, by omega⟩, List.get?_eq_get (by omega)⟩
    simp only [hv4]
    have hreq : requiredLen data = v4 + 6 + 1 := by
      rw [requiredLen, if_neg (by rw [hA]; norm_num [DOMAINNAME, IPV4]),
        if_neg (by rw [hA]; norm_num [DOMAINNAME, IPV6]), getD_get?, hv4]
      rfl
    rw [hreq]
    by_cases hlen : data.length = v4 + 6 + 1
    · rw [if_neg (by omega)]
      have hdrop : data.drop (v4 + 6 + 1) = [] := by
        rw [← hlen]
        exact List.drop_length data
      rcases hres : resolve ((data.drop 4).take (v4 + 6 + 1 - 4)) with _ | ip
      · simp [hres, hlen]
      · simp [hres, hdrop, bigEndianUint16, hlen]
    · rw [if_pos hlen]
      simp [hlen]

/-- Closed witness for `c4_length_mismatch_iff`: a 9-byte IPv4 request
buffer (one byte short of 10) is rejected with the length-mismatch error. -/
theorem c4_length_mismatch_iff_witness :
    4 ≤ ([5, 1, 0, 1, 10, 0, 0, 1, 0] : List Nat).length ∧
      (([5, 1, 0, 1, 10, 0, 0, 1, 0] : List Nat).getD 3 0 = IPV4 ∨
        ([5, 1, 0, 1, 10, 0, 0, 1, 0] : List Nat).getD 3 0 = IPV6 ∨
        (([5, 1, 0, 1, 10, 0, 0, 1, 0] : List Nat).getD 3 0 = DOMAINNAME ∧
          5 ≤ ([5, 1, 0, 1, 10, 0, 0, 1, 0] : List Nat).length)) ∧
      (DeserializeRequest (fun _ => none) (some [5, 1, 0, 1, 10, 0, 0, 1, 0]) =
          GoResult.err DecodeErr.lengthMismatch ↔
        ([5, 1, 0, 1, 10, 0, 0, 1, 0] : List Nat).length ≠
          requiredLen [5, 1, 0, 1, 10, 0, 0, 1, 0]) :=
  ⟨by decide, by decide,
    c4_length_mismatch_iff (fun _ => none) [5, 1, 0, 1, 10, 0, 0, 1, 0]
      (by decide) (by decide)⟩

/-- C4 counterexample: the 4-byte input `[5, 1, 0, 3]` has a known ATYP
(domain) and a total length different from every domain requirement
`4 + 1 + N + 2 ≥ 7`, yet the decoder does not return the length-mismatch
error — it panics reading the absent length byte `content[4]`. -/
theorem c4_four_byte_domain_panics :
    DeserializeRequest (fun _ => none) (some [5, 1, 0, 3]) = GoResult.crash ∧
      DeserializeRequest (fun _ => none) (some [5, 1, 0, 3]) ≠
        GoResult.err DecodeErr.lengthMismatch :=
  ⟨rfl, by decide⟩

/-- C8: `DeserializeReply` mirrors `DeserializeRequest` exactly — on every
input (and the same resolver behavior) it succeeds, fails, or panics
exactly when `DeserializeRequest` does, and on success the `Reply` carries
field for field the decoded `Request`'s version, code, reserved, ATYP,
address and port. -/
theorem c8_deserializeReply_mirrors (resolve : Resolver) (content : Option (List Nat)) :
    DeserializeReply resolve content =
      GoResult.map replyOfRequest (DeserializeRequest resolve content) :=
  deserializeReply_eq_map resolve content

end Socks5
